import Mathlib

/-!
Verification of the clip.cafe compositing pipeline against its specification.

This file shallowly embeds the layout/compositing core of the repository:

* `src/clip_edit_process.py` — geometry resolution (`target_width`,
  `scaled_h`, `video_top_val`, `title_pos_y`, the clamped content rectangle
  and effective corner radius), the text-suffix builder and the selection of
  the compositing filter chain, and `safe_filename_from_slug`;
* `src/subs_utils.py` — `decimal_ms`, `float_to_srt_time`,
  `parse_subs_field`, `write_srt`;
* `src/media_utils.py` — `ffmpeg_escape_text`, `ffmpeg_escape_fontfile`;
* `src/graphics_utils.py` — `prepare_logo` (pixel operations abstracted to
  their success/failure structure, which is all the claims need).

Modelling conventions:

* Python `int` is `ℤ`; Python `float` is modelled exactly by `ℚ` (the
  geometry values involved are small decimal fractions, where IEEE rounding
  never disturbs the comparisons the claims make).
* Python `//` and `%` (floor division / sign-of-divisor modulus) are
  `Int.fdiv` / `Int.emod`.
* Python's builtin `round` (banker's rounding, ties to even) is `pyRound`.
* Python string methods (`replace`, `split`, `strip`) are re-implemented as
  fuel-based structural recursions so that every definition evaluates inside
  the kernel; the fuel is always sufficient (one unit per input character).
* `str.isalnum` is Unicode-aware in Python; it is taken as a parameter
  constrained to agree with ASCII alphanumerics, which is all the proofs
  need.
* File-system and subprocess effects (does a file exist, did the external
  decoder succeed) become explicit boolean inputs.
-/

/-! ## Python primitive helpers -/

/-- Python `a // b` (floor division). -/
def pyFloorDiv (a b : ℤ) : ℤ := Int.fdiv a b

/-- Python `a % b` (remainder with the divisor's sign; for the positive
divisors used here it agrees with `Int.emod`). -/
def pyMod (a b : ℤ) : ℤ := Int.emod a b

/-- Python's builtin `round` on an exactly-represented value: round half to
even (banker's rounding). -/
def pyRound (q : ℚ) : ℤ :=
  if q - ⌊q⌋ < 1/2 then ⌊q⌋
  else if 1/2 < q - ⌊q⌋ then ⌊q⌋ + 1
  else if ⌊q⌋ % 2 = 0 then ⌊q⌋ else ⌊q⌋ + 1

/-- One replacement pass of Python `str.replace`, on character lists, with
explicit fuel (one unit per character suffices). Matches are found left to
right and do not overlap, as in Python. -/
def replaceCharsAux (pat rep : List Char) : ℕ → List Char → List Char
  | 0, l => l
  | _ + 1, [] => []
  | fuel + 1, c :: rest =>
    if pat.isPrefixOf (c :: rest) then
      rep ++ replaceCharsAux pat rep fuel (List.drop (pat.length - 1) rest)
    else c :: replaceCharsAux pat rep fuel rest

/-- Python `s.replace(pat, rep)` for a non-empty pattern (the empty pattern
never occurs in this code base; it is mapped to the identity). -/
def pyReplace (s pat rep : String) : String :=
  if pat = "" then s
  else String.mk (replaceCharsAux pat.toList rep.toList s.toList.length s.toList)

/-- Python `s.split(sep)` for a non-empty separator, on character lists with
fuel; `"".split(sep) = [""]` as in Python. -/
def pySplitAux (sep : List Char) : ℕ → List Char → List Char → List String
  | 0, acc, l => [String.mk (acc ++ l)]
  | _ + 1, acc, [] => [String.mk acc]
  | fuel + 1, acc, c :: rest =>
    if sep.isPrefixOf (c :: rest) then
      String.mk acc :: pySplitAux sep fuel [] (List.drop (sep.length - 1) rest)
    else pySplitAux sep fuel (acc ++ [c]) rest

/-- Python `s.split(sep)` (non-empty separator). -/
def pySplit (s sep : String) : List String :=
  pySplitAux sep.toList s.toList.length [] s.toList

/-- Python `s.strip(chars)`: drop the characters of `cs` from both ends. -/
def pyStripChars (cs : List Char) (l : List Char) : List Char :=
  ((l.dropWhile (cs.contains ·)).reverse.dropWhile (cs.contains ·)).reverse

/-- The whitespace characters Python `str.strip()` removes (ASCII part). -/
def pyWhitespace : List Char := [' ', '\t', '\n', '\r', '\x0b', '\x0c']

/-- Python `s.strip()` (no argument: strip whitespace). -/
def pyStrip (s : String) : String := String.mk (pyStripChars pyWhitespace s.toList)

/-- Decimal digits of a natural number, most significant first, with fuel
(the fuel `n + 1` always suffices since `n / 10 < n` for `n ≥ 10`). Models
the decimal rendering an f-string performs on an `int`. -/
def natDigitsAux : ℕ → ℕ → List Char
  | 0, _ => []
  | fuel + 1, n =>
    if n < 10 then [Nat.digitChar n]
    else natDigitsAux fuel (n / 10) ++ [Nat.digitChar (n % 10)]

/-- Decimal rendering of a natural number, as an f-string renders an `int`. -/
def natDigitString (n : ℕ) : String := String.mk (natDigitsAux (n + 1) n)

/-- Decimal rendering of an integer, as an f-string renders an `int`. -/
def intDigitString (n : ℤ) : String :=
  if n < 0 then "-" ++ natDigitString n.natAbs else natDigitString n.natAbs

/-- Python `f"{n:02d}"` for the values arising here. -/
def pad2 (n : ℤ) : String :=
  if 0 ≤ n ∧ n < 10 then "0" ++ intDigitString n else intDigitString n

/-- Python `f"{n:03d}"` for the values arising here. -/
def pad3 (n : ℤ) : String :=
  if 0 ≤ n ∧ n < 10 then "00" ++ intDigitString n
  else if 0 ≤ n ∧ n < 100 then "0" ++ intDigitString n
  else intDigitString n

/-- Python `float(s)`: parse a decimal literal `[+|-] digits [. digits]`
with surrounding whitespace allowed (the exponent and special forms never
occur in this repository's caption data; strings outside this grammar are
"unparsable" and make `float` raise, modelled by `none`). -/
def parsePyFloat (s : String) : Option ℚ :=
  let cs := pyStripChars pyWhitespace s.toList
  let signed : Bool × List Char :=
    match cs with
    | '-' :: r => (true, r)
    | '+' :: r => (false, r)
    | r => (false, r)
  let neg := signed.1
  let body := signed.2
  let intPart := body.takeWhile (·.isDigit)
  let rest := body.dropWhile (·.isDigit)
  let digitsVal : List Char → ℕ := fun l => l.foldl (fun a c => 10 * a + (c.toNat - 48)) 0
  let mag : Option ℚ :=
    match rest with
    | [] => if intPart.isEmpty then none else some (digitsVal intPart : ℚ)
    | '.' :: frac =>
      if frac.all (·.isDigit) ∧ ¬(intPart.isEmpty ∧ frac.isEmpty) then
        some ((digitsVal intPart : ℚ) + (digitsVal frac : ℚ) / (10 : ℚ) ^ frac.length)
      else none
    | _ => none
  mag.map (fun q => if neg then -q else q)

/-! ## Geometry resolver (`src/clip_edit_process.py`, `edit_clip` lines 140–160, 229–236) -/

/-- Line 142: `target_width = max(16, 1080 - 2 * side_margin)` after line 141
`side_margin = max(0, int(side_margin))`. -/
def target_width (side_margin : ℤ) : ℤ := max 16 (1080 - 2 * max 0 side_margin)

/-- Lines 144–152: `scaled_h = int(round(orig_h * (target_width / orig_w)))`;
a zero `orig_w` raises `ZeroDivisionError`, caught to `None`. -/
def scaled_h (orig_w orig_h : ℕ) (tw : ℤ) : Option ℤ :=
  if orig_w = 0 then none
  else some (pyRound ((orig_h : ℚ) * ((tw : ℚ) / (orig_w : ℚ))))

/-- Lines 154–157: `video_top_val = (1920 - scaled_h) // 2` when `scaled_h`
is truthy and positive, else the fallback `200`. -/
def video_top_val (sh : Option ℤ) : ℤ :=
  match sh with
  | some s => if 0 < s then pyFloorDiv (1920 - s) 2 else 200
  | none => 200

/-- Line 160: `title_pos_y = max(6, video_top_val - gap)`. -/
def title_pos_y (video_top gap : ℤ) : ℤ := max 6 (video_top - gap)

/-- Line 230 (also 284): `video_left = (1080 - target_width) // 2`. -/
def video_left (tw : ℤ) : ℤ := pyFloorDiv (1080 - tw) 2

/-- The clamped content rectangle of the frame/mask path. -/
structure Rect where
  x0 : ℤ
  y0 : ℤ
  x1 : ℤ
  y1 : ℤ
  deriving DecidableEq, Repr

/-- Lines 230–234: the content rectangle clamped into the canvas,
`x0 = max(0, min(1079, video_left))`, `y0 = max(0, min(1919, video_top_val))`,
`x1 = max(1, min(1080, video_left + target_width))`,
`y1 = max(1, min(1920, video_top_val + scaled_h))`. -/
def frame_rect (tw video_top sh : ℤ) : Rect :=
  { x0 := max 0 (min 1079 (video_left tw))
    y0 := max 0 (min 1919 video_top)
    x1 := max 1 (min 1080 (video_left tw + tw))
    y1 := max 1 (min 1920 (video_top + sh)) }

/-- Line 235: `max_radius = min((x1 - x0) // 2, (y1 - y0) // 2)`. -/
def max_radius (r : Rect) : ℤ :=
  min (pyFloorDiv (r.x1 - r.x0) 2) (pyFloorDiv (r.y1 - r.y0) 2)

/-- Line 236: `radius_use = max(0, min(int(corner_radius), max_radius)) if
max_radius > 0 else 0`. -/
def radius_use (corner_radius : ℤ) (r : Rect) : ℤ :=
  if 0 < max_radius r then max 0 (min corner_radius (max_radius r)) else 0

/-- Lines 285–286: logo overlay coordinates
`lx = video_left + max(0, logo_margin)`, `ly = video_top_val + max(0, logo_margin)`. -/
def logo_coords (tw video_top logo_margin : ℤ) : ℤ × ℤ :=
  (video_left tw + max 0 logo_margin, video_top + max 0 logo_margin)

/-! ## Slug sanitizer (`src/clip_edit_process.py` lines 32–34) -/

/-- Whether a character is kept by the sanitizer's `c in "-_."` test. -/
def dashUnderscoreDot (c : Char) : Bool := c = '-' || c = '_' || c = '.'

/-- Lines 32–34: `name = slug.replace("/", "_").replace(" ", "_")`, then keep
alphanumerics and `-_.`, strip `-_` from both ends, and fall back to
`f"clip_{int(time.time())}"` when nothing is left. `isAlnum` stands for
Python's Unicode-aware `str.isalnum`; `now` is `int(time.time())`. -/
def safe_filename_from_slug (isAlnum : Char → Bool) (now : ℕ) (slug : String) : String :=
  let name := pyReplace (pyReplace slug "/" "_") " " "_"
  let kept := name.toList.filter (fun c => isAlnum c || dashUnderscoreDot c)
  let stripped := String.mk (pyStripChars ['-', '_'] kept)
  if stripped = "" then "clip_" ++ natDigitString now else stripped

/-! ## Caption parsing and SRT serialization (`src/subs_utils.py`) -/

/-- A JSON scalar as the caption payload carries it: a string or a number. -/
inductive JVal where
  | str (s : String)
  | num (q : ℚ)
  deriving DecidableEq

/-- Python `float(v)` applied to a JSON scalar: parse strings, pass numbers
through; `none` models the `ValueError` the bare `except` catches. -/
def pyFloatOf : JVal → Option ℚ
  | .str s => parsePyFloat s
  | .num q => some q

/-- One entry of the decoded caption dictionary: the fields
`parse_subs_field` reads, each possibly absent. `textUpper` is `"Text"`,
`textLower` is `"text"`. -/
structure SubEntry where
  timeStart : Option JVal := none
  timeEnd : Option JVal := none
  textUpper : Option String := none
  textLower : Option String := none

/-- Lines 48–49: `entry.get("Text", "") or entry.get("text", "") or ""`
followed by newline normalization and `strip()`. -/
def entry_text (e : SubEntry) : String :=
  let t1 := e.textUpper.getD ""
  let t2 := e.textLower.getD ""
  let t := if t1 ≠ "" then t1 else if t2 ≠ "" then t2 else ""
  pyStrip (pyReplace (pyReplace t "\r\n" "\n") "\r" "\n")

/-- Lines 40–50: one `(start, end, text)` cue from one entry. A missing
`TimeStart` defaults to `float(0)`; an unparsable one is caught to `0.0`.
A missing `TimeEnd` defaults to `start + 2.0`; an unparsable one is caught
to `start + 2.0`. -/
def cueOfEntry (e : SubEntry) : ℚ × ℚ × String :=
  let start : ℚ :=
    match e.timeStart with
    | none => 0
    | some v => (pyFloatOf v).getD 0
  let stop : ℚ :=
    match e.timeEnd with
    | none => start + 2
    | some v => (pyFloatOf v).getD (start + 2)
  (start, stop, entry_text e)

/-- Python `str.isdigit` (ASCII part): non-empty and all digits. -/
def pyStrIsdigit (s : String) : Bool := !s.toList.isEmpty && s.toList.all (·.isDigit)

/-- Numeric value of a digit string (`int(k)` for the sort key). -/
def strDigitsVal (s : String) : ℕ := s.toList.foldl (fun a c => 10 * a + (c.toNat - 48)) 0

/-- Stable insertion into a sorted list: `x` goes before the first element
not strictly below it, so elements equal under the key keep their original
relative order (Python's `sorted` is stable). -/
def stableInsert (lt : α → α → Bool) (x : α) : List α → List α
  | [] => [x]
  | y :: ys => if lt y x then y :: stableInsert lt x ys else x :: y :: ys

/-- Stable sort by a strict comparison (right fold of stable inserts). -/
def stableSort (lt : α → α → Bool) : List α → List α
  | [] => []
  | x :: xs => stableInsert lt x (stableSort lt xs)

/-- Lines 34–37: `sorted(data.keys(), key=lambda k: int(k) if
str(k).isdigit() else k)`. When every key is a digit string the keys sort by
integer value; when none is, they sort as strings; a mixed list makes the
comparison raise `TypeError` (int vs str), caught to the original order. -/
def sort_keys (ks : List String) : List String :=
  if ks.all pyStrIsdigit then
    stableSort (fun a b => decide (strDigitsVal a < strDigitsVal b)) ks
  else if ks.all (fun k => !pyStrIsdigit k) then
    stableSort (fun a b => decide (a < b)) ks
  else ks

/-- Lines 23–51, from the decoded dictionary (an association list in
insertion order; `json.loads` of the payload string is taken as given —
stdlib JSON decoding is not re-verified here): sort the keys, look each one
up, and convert every entry to a cue. -/
def parse_subs_field (data : List (String × SubEntry)) : List (ℚ × ℚ × String) :=
  (sort_keys (data.map Prod.fst)).filterMap
    (fun k => (data.lookup k).map cueOfEntry)

/-- Lines 9–11: `Decimal(str(v)).quantize(Decimal("0.001"), ROUND_HALF_UP)`
then `int(d * 1000)`: milliseconds, ties rounded away from zero. -/
def decimal_ms (v : ℚ) : ℤ :=
  if 0 ≤ v then ⌊v * 1000 + 1/2⌋ else -⌊-(v * 1000) + 1/2⌋

/-- Lines 13–21: `hh:mm:ss,mmm` from a time in seconds. -/
def float_to_srt_time (f : ℚ) : String :=
  let total_ms := decimal_ms f
  let ms := pyMod total_ms 1000
  let total_s := pyFloorDiv total_ms 1000
  let s := pyMod total_s 60
  let total_m := pyFloorDiv total_s 60
  let m := pyMod total_m 60
  let h := pyFloorDiv total_m 60
  pad2 h ++ ":" ++ pad2 m ++ ":" ++ pad2 s ++ "," ++ pad3 ms

/-- Lines 53–60: the lines `write_srt` joins with newlines — a 1-based
index, the `start --> end` time line, the text split on newlines, and a
blank line per cue. -/
def write_srt_lines_from (i : ℕ) : List (ℚ × ℚ × String) → List String
  | [] => []
  | (start, stop, text) :: rest =>
    ([natDigitString i, float_to_srt_time start ++ " --> " ++ float_to_srt_time stop]
      ++ pySplit text "\n" ++ [""]) ++ write_srt_lines_from (i + 1) rest

/-- The body `write_srt` writes, as its list of lines. -/
def write_srt_lines (items : List (ℚ × ℚ × String)) : List String :=
  write_srt_lines_from 1 items

/-! ## Filter-string escaping (`src/media_utils.py` lines 80–86) -/

/-- Lines 80–83: escape backslash, single quote and colon with a backslash
and double percent signs, in that order. -/
def ffmpeg_escape_text (txt : String) : String :=
  if txt = "" then ""
  else pyReplace (pyReplace (pyReplace (pyReplace txt "\\" "\\\\") "'" "\\'") ":" "\\:") "%" "%%"

/-- Lines 85–86: escape backslash and single quote in a font path. -/
def ffmpeg_escape_fontfile (path : String) : String :=
  pyReplace (pyReplace path "\\" "\\\\") "'" "\\'"

/-! ## Logo preparation (`src/graphics_utils.py` lines 56–82 and
`src/clip_edit_process.py` lines 265–278) -/

/-- The externally observable state of the logo source file. -/
structure LogoFile where
  file_present : Bool
  decodable : Bool
  deriving DecidableEq

/-- What `prepare_logo` wrote: a scaled copy of the provided image, or the
generated placeholder. -/
inductive LogoImage where
  | fromFile
  | dummy
  deriving DecidableEq

/-- `graphics_utils.prepare_logo`: `None` without the raster library; if the
source is given and exists, decode it (a decode failure raises, caught to
`None`); otherwise synthesize the dummy placeholder; opacity and scaling
never fail; saving can fail (`save_ok`), caught to `None`. -/
def prepare_logo (pil_available : Bool) (logo_src : Option LogoFile) (save_ok : Bool) :
    Option LogoImage :=
  if !pil_available then none
  else
    let loaded : Option LogoImage :=
      match logo_src with
      | some f =>
        if f.file_present then (if f.decodable then some .fromFile else none)
        else some .dummy
      | none => some .dummy
    match loaded with
    | none => none
    | some img => if save_ok then some img else none

/-- `edit_clip` lines 266–278: call `prepare_logo` only when
`logo_size_ratio` is truthy and positive; any exception leaves
`logo_ready_path = None`. -/
def logo_ready (pil_available : Bool) (logo_frac : ℚ) (logo_src : Option LogoFile)
    (save_ok : Bool) : Option LogoImage :=
  if 0 < logo_frac then prepare_logo pil_available logo_src save_ok else none

/-! ## Compositing graph assembly (`src/clip_edit_process.py` lines 178–224,
289–400) -/

/-- Lines 179–183: the base scale/pad/crop chain, as its three filter
stages. -/
def base_transform_stages (tw : ℤ) : List String :=
  ["scale=" ++ intDigitString tw ++ ":-2",
   "pad=width='max(1080,iw)':height='max(1920,ih)':x='(ow-iw)/2':y='(oh-ih)/2':color=black",
   "crop=1080:1920"]

/-- Lines 179–183 joined: `base_transform_snippet` exactly as interpolated. -/
def base_transform_snippet (tw : ℤ) : String :=
  String.intercalate "," (base_transform_stages tw)

/-- The inputs of `build_text_suffix` (lines 186–209), flattened: whether the
rich track is used and its file exists, whether the SRT file exists, the
already-built drawtext filter, the optional fonts directory, and the style
parameters of the `force_style` fallback. -/
structure TextCfg where
  use_ass : Bool
  ass_exists : Bool
  srt_exists : Bool
  ass_path : String
  srt_path : String
  drawtext : Option String
  fonts_dir : Option String
  font_family : String
  subtitle_size : ℤ
  subtitle_margin : ℤ

/-- Line 204: the `force_style` string of the SRT fallback. -/
def force_style (font_family : String) (subtitle_size subtitle_margin : ℤ) : String :=
  "FontName=" ++ font_family ++ ",FontSize=" ++ intDigitString subtitle_size
    ++ ",Alignment=2,MarginV=" ++ intDigitString subtitle_margin
    ++ ",PrimaryColour=&H00FFFFFF&,Outline=1,Shadow=0"

/-- Lines 197–208: the subtitle/track overlay stage appended after the
drawtext part — the rich track (`subtitles=…:fontsdir=…` or `ass=…`) when
usable, else the SRT `subtitles=…:force_style=…` stage, else nothing. -/
def track_stage (c : TextCfg) : Option String :=
  if c.use_ass && c.ass_exists then
    some (match c.fonts_dir with
      | some fd => "subtitles=" ++ c.ass_path ++ ":fontsdir=" ++ fd
      | none => "ass=" ++ c.ass_path)
  else if c.srt_exists then
    some (match c.fonts_dir with
      | some fd =>
        "subtitles=" ++ c.srt_path ++ ":force_style='"
          ++ force_style c.font_family c.subtitle_size c.subtitle_margin ++ "':fontsdir=" ++ fd
      | none =>
        "subtitles=" ++ c.srt_path ++ ":force_style='"
          ++ force_style c.font_family c.subtitle_size c.subtitle_margin ++ "'")
  else none

/-- Lines 194–209: the `parts` list of `build_text_suffix` — the drawtext
filter (if any) followed by the track stage (if any). -/
def build_text_suffix_parts (c : TextCfg) : List String :=
  (match c.drawtext with | some d => [d] | none => [])
    ++ (match track_stage c with | some t => [t] | none => [])

/-- Line 209: `("," + ",".join(parts)) if parts else ""`. -/
def build_text_suffix (c : TextCfg) : String :=
  let parts := build_text_suffix_parts c
  if parts.isEmpty then "" else "," ++ String.intercalate "," parts

/-- Lines 211–220: the drawtext filter — built only when the rich track is
not used and a title is present; with a usable font file it names the font
file, otherwise the `Roboto` family. -/
def drawtext_filter (use_ass : Bool) (title_text : Option String)
    (title_size : Option ℤ) (subtitle_size title_y : ℤ)
    (font_file : Option String) : Option String :=
  match title_text with
  | none => none
  | some t =>
    if use_ass then none
    else
      let txt := ffmpeg_escape_text t
      let tsize := match title_size with
        | some ts => if ts = 0 then subtitle_size else ts
        | none => subtitle_size
      let tail := ":text='" ++ txt ++ "':fontsize=" ++ intDigitString tsize
        ++ ":fontcolor=white:x=(w-text_w)/2:y=" ++ intDigitString title_y
        ++ ":box=1:boxcolor=black@0.5:boxborderw=5"
      match font_file with
      | some ff => some ("drawtext=fontfile='" ++ ffmpeg_escape_fontfile ff ++ "'" ++ tail)
      | none => some ("drawtext=font='Roboto'" ++ tail)

/-- The logo overlay stage `overlay={lx}:{ly}`. -/
def overlay_xy (lx ly : ℤ) : String :=
  "overlay=" ++ intDigitString lx ++ ":" ++ intDigitString ly

/-- Lines 289–400 (and identically 427–535 for reels): the sequence of
filter operations applied along the main video path of the selected
`filter_complex` (or `-vf` chain), in graph order. The frame path overlays
the frame bitmap then the logo; the mask path converts to `rgba`, merges the
mask's alpha, composites over the background color and overlays the logo;
the plain path only overlays the logo; in every branch the text suffix comes
last. -/
def insta_main_chain (use_frame use_mask has_logo : Bool) (tw lx ly : ℤ)
    (suffix_parts : List String) : List String :=
  if use_frame then
    if has_logo then
      base_transform_stages tw ++ ["overlay=0:0", overlay_xy lx ly] ++ suffix_parts
    else
      base_transform_stages tw ++ ["overlay=0:0"] ++ suffix_parts
  else if use_mask then
    if has_logo then
      base_transform_stages tw
        ++ ["format=rgba", "alphamerge", "overlay=format=auto", overlay_xy lx ly] ++ suffix_parts
    else
      base_transform_stages tw
        ++ ["format=rgba", "alphamerge", "overlay=format=auto"] ++ suffix_parts
  else
    if has_logo then base_transform_stages tw ++ [overlay_xy lx ly] ++ suffix_parts
    else base_transform_stages tw ++ suffix_parts

/-- The overlay stages of a shape: what stands between the base geometry
chain and the text suffix in `insta_main_chain`. -/
def overlay_stages (use_frame use_mask has_logo : Bool) (lx ly : ℤ) : List String :=
  if use_frame then ["overlay=0:0"] ++ (if has_logo then [overlay_xy lx ly] else [])
  else if use_mask then
    ["format=rgba", "alphamerge", "overlay=format=auto"]
      ++ (if has_logo then [overlay_xy lx ly] else [])
  else if has_logo then [overlay_xy lx ly] else []

/-- Lines 292–298: the exact `filter_complex` string of the frame-plus-logo
shape. -/
def insta_filter_frame_logo (tw lx ly : ℤ) (text_suffix : String) : String :=
  "[0:v]" ++ base_transform_snippet tw ++ "[vcore];"
    ++ "[vcore][1:v]overlay=0:0[withframe];"
    ++ "[withframe][2:v]" ++ overlay_xy lx ly
    ++ text_suffix ++ "[final]"

/-! ## Concrete instances used by the claims -/

/-- The drawtext filter `edit_clip` builds for the title `Movie` with no
font file, title size 42 and `title_pos_y = 519`. -/
def c1_drawtext : String :=
  "drawtext=font='Roboto':text='Movie':fontsize=42:fontcolor=white:x=(w-text_w)/2:y=519:box=1:boxcolor=black@0.5:boxborderw=5"

/-- The SRT fallback track stage of `c1_cfg`. -/
def c1_track : String :=
  "subtitles=clip.srt:force_style='FontName=Roboto,FontSize=42,Alignment=2,MarginV=60,PrimaryColour=&H00FFFFFF&,Outline=1,Shadow=0'"

/-- A text configuration of the drawtext fallback path: the rich track is
not used, the SRT file exists, a title drawtext is present. -/
def c1_cfg : TextCfg :=
  { use_ass := false, ass_exists := false, srt_exists := true,
    ass_path := "clip.ass", srt_path := "clip.srt",
    drawtext := some c1_drawtext, fonts_dir := none,
    font_family := "Roboto", subtitle_size := 42, subtitle_margin := 60 }

/-- The decoded caption entry of claim C7's payload. -/
def c7_entry : SubEntry :=
  { timeStart := some (JVal.str "1.5"), timeEnd := some (JVal.str "3.25"),
    textUpper := some "Hi", textLower := none }

/-- A caption entry whose time fields are unparsable strings and whose text
fields are absent. -/
def c10_entry : SubEntry :=
  { timeStart := some (JVal.str "oops"), timeEnd := some (JVal.str "nope"),
    textUpper := none, textLower := none }

/-! ## Helper lemmas -/

theorem pyFloorDiv_two (a : ℤ) : pyFloorDiv a 2 = a / 2 :=
  Int.fdiv_eq_ediv a (by norm_num)

theorem head?_dropWhile_not (p : Char → Bool) (l : List Char) (c : Char)
    (h : (l.dropWhile p).head? = some c) : p c = false := by
  induction l with
  | nil => simp at h
  | cons x xs ih =>
    rw [List.dropWhile_cons] at h
    split at h
    · exact ih h
    · simp only [List.head?_cons, Option.some.injEq] at h
      subst h
      simp_all

theorem pyStripChars_mem (cs l : List Char) (c : Char)
    (h : c ∈ pyStripChars cs l) : c ∈ l := by
  unfold pyStripChars at h
  rw [List.mem_reverse] at h
  have h2 := List.Sublist.mem h (List.dropWhile_sublist _)
  rw [List.mem_reverse] at h2
  exact List.Sublist.mem h2 (List.dropWhile_sublist _)

theorem pyStripChars_head (cs l : List Char) (c : Char)
    (h : (pyStripChars cs l).head? = some c) : cs.contains c = false := by
  unfold pyStripChars at h
  rw [List.head?_reverse] at h
  have h3 : (l.dropWhile (cs.contains ·)).reverse.getLast? = some c := by
    rw [← List.takeWhile_append_dropWhile (cs.contains ·) (l.dropWhile (cs.contains ·)).reverse,
      List.getLast?_append, h]
    rfl
  rw [List.getLast?_reverse] at h3
  exact head?_dropWhile_not _ _ _ h3

theorem pyStripChars_getLast (cs l : List Char) (c : Char)
    (h : (pyStripChars cs l).getLast? = some c) : cs.contains c = false := by
  unfold pyStripChars at h
  rw [List.getLast?_reverse] at h
  exact head?_dropWhile_not _ _ _ h

theorem digitChar_isDigit (n : ℕ) (h : n < 10) : (Nat.digitChar n).isDigit = true := by
  interval_cases n <;> decide

theorem natDigitsAux_digits (fuel : ℕ) :
    ∀ (n : ℕ) (c : Char), c ∈ natDigitsAux fuel n → c.isDigit = true := by
  induction fuel with
  | zero => intro n c h; simp [natDigitsAux] at h
  | succ f ih =>
    intro n c h
    by_cases hlt : n < 10
    · rw [natDigitsAux, if_pos hlt] at h
      simp only [List.mem_singleton] at h
      subst h
      exact digitChar_isDigit n hlt
    · rw [natDigitsAux, if_neg hlt] at h
      rw [List.mem_append] at h
      rcases h with h | h
      · exact ih _ _ h
      · simp only [List.mem_singleton] at h
        subst h
        exact digitChar_isDigit _ (Nat.mod_lt _ (by norm_num))

theorem natDigitsAux_ne_nil (f n : ℕ) : natDigitsAux (f + 1) n ≠ [] := by
  rw [natDigitsAux]
  split <;> simp

theorem getLast?_some_mem {α : Type} {l : List α} {c : α} (h : l.getLast? = some c) :
    c ∈ l := by
  obtain ⟨h1, h2⟩ := List.mem_getLast?_eq_getLast (Option.mem_def.mpr h)
  rw [h2]
  exact List.getLast_mem h1

theorem digit_not_dash_underscore (c : Char) (h : c.isDigit = true) : c ≠ '-' ∧ c ≠ '_' := by
  refine ⟨?_, ?_⟩
  · rintro rfl
    simp [Char.isDigit] at h
  · rintro rfl
    simp [Char.isDigit] at h

/-! ## Claim theorems -/

/-- Claim C2, amended. For every source with known dimensions and
`source_w > 0`, the resolver computes
`scaled_height = round(source_h * content_width / source_w)`; and whenever
that rounded height is positive (the amendment: the code falls back to the
constant `200` when it rounds to `0`),
`content_top = (canvas_h - scaled_height) // 2` with floor division; in
particular `canvas_h = 1920`, `scaled_height = 881` gives `content_top =
519`. -/
theorem C2_geometry (m : ℤ) (w h : ℕ) (hw : w ≠ 0)
    (hpos : 0 < pyRound ((h : ℚ) * ((target_width m : ℚ) / (w : ℚ)))) :
    scaled_h w h (target_width m)
      = some (pyRound ((h : ℚ) * ((target_width m : ℚ) / (w : ℚ))))
    ∧ video_top_val (scaled_h w h (target_width m))
      = pyFloorDiv (1920 - pyRound ((h : ℚ) * ((target_width m : ℚ) / (w : ℚ)))) 2
    ∧ video_top_val (some 881) = 519 := by
  have h1 : scaled_h w h (target_width m)
      = some (pyRound ((h : ℚ) * ((target_width m : ℚ) / (w : ℚ)))) := by
    simp [scaled_h, hw]
  refine ⟨h1, ?_, by decide⟩
  rw [h1]
  simp [video_top_val, hpos]

/-- Witness for C2: a 1080×881 source with `side_margin = 0` has a positive
rounded height and resolves to `content_top = 519`. -/
theorem C2_witness :
    (1080 : ℕ) ≠ 0
    ∧ 0 < pyRound (((881 : ℕ) : ℚ) * ((target_width 0 : ℚ) / ((1080 : ℕ) : ℚ)))
    ∧ video_top_val (scaled_h 1080 881 (target_width 0)) = 519 := by
  have hp : 0 < pyRound (((881 : ℕ) : ℚ) * ((target_width 0 : ℚ) / ((1080 : ℕ) : ℚ))) := by
    norm_num [pyRound, target_width]
  refine ⟨by decide, hp, ?_⟩
  have h2 := (C2_geometry 0 1080 881 (by decide) hp).2.1
  have hr : pyRound (((881 : ℕ) : ℚ) * ((target_width 0 : ℚ) / ((1080 : ℕ) : ℚ))) = 881 := by
    norm_num [pyRound, target_width]
  rw [h2, hr]
  decide

/-- Counterexample to C2 as stated: a 4000×1 source (known dimensions,
`source_w > 0`) rounds to `scaled_height = 0`, and the code then uses the
fallback `content_top = 200`, not `(1920 - 0) // 2 = 960`. -/
theorem C2_counterexample :
    scaled_h 4000 1 (target_width 0) = some 0
    ∧ video_top_val (scaled_h 4000 1 (target_width 0)) = 200
    ∧ pyFloorDiv (1920 - 0) 2 = 960
    ∧ (200 : ℤ) ≠ 960 := by
  have h1 : scaled_h 4000 1 (target_width 0) = some 0 := by
    norm_num [scaled_h, target_width, pyRound]
  refine ⟨h1, ?_, by decide, by decide⟩
  rw [h1]
  decide

/-- Claim C3. For every requested corner radius and every clamped content
rectangle (derived from any side margin, any content top and any positive
scaled height), the effective radius is at most half the rectangle's shorter
side; and requesting radius 9999 on the 1080×400 rectangle yields 200. -/
theorem C3_effective_radius (corner_radius m video_top sh : ℤ) (hsh : 0 < sh) :
    radius_use corner_radius (frame_rect (target_width m) video_top sh)
      ≤ min ((frame_rect (target_width m) video_top sh).x1
              - (frame_rect (target_width m) video_top sh).x0)
            ((frame_rect (target_width m) video_top sh).y1
              - (frame_rect (target_width m) video_top sh).y0) / 2
    ∧ radius_use 9999 (frame_rect (target_width 0) (video_top_val (some 400)) 400) = 200 := by
  refine ⟨?_, by decide⟩
  simp only [radius_use, max_radius, frame_rect, video_left, target_width, pyFloorDiv_two]
  split <;> omega

/-- Witness for C3: the 1080×400 rectangle with requested radius 9999. -/
theorem C3_witness :
    (0 : ℤ) < 400
    ∧ radius_use 9999 (frame_rect (target_width 0) (video_top_val (some 400)) 400) = 200 :=
  ⟨by decide, (C3_effective_radius 9999 0 760 400 (by decide)).2⟩

/-- Claim C4, amended. For `side_margin ≥ 0` with `2*side_margin < 1080`,
the content width is `max(16, 1080 - 2*side_margin)` (the amendment: the
code clamps with `max 16`, so the claimed plain difference fails for
margins 533–539) and is always at least 16; and the clamped content
rectangle lies fully inside the 1080×1920 canvas. -/
theorem C4_content_rect (m video_top sh : ℤ) (hm : 0 ≤ m) (hlt : 2 * m < 1080)
    (hsh : 0 < sh) :
    16 ≤ target_width m
    ∧ target_width m = max 16 (1080 - 2 * m)
    ∧ 0 ≤ (frame_rect (target_width m) video_top sh).x0
    ∧ (frame_rect (target_width m) video_top sh).x0 ≤ (frame_rect (target_width m) video_top sh).x1
    ∧ (frame_rect (target_width m) video_top sh).x1 ≤ 1080
    ∧ 0 ≤ (frame_rect (target_width m) video_top sh).y0
    ∧ (frame_rect (target_width m) video_top sh).y0 ≤ (frame_rect (target_width m) video_top sh).y1
    ∧ (frame_rect (target_width m) video_top sh).y1 ≤ 1920 := by
  simp only [target_width, frame_rect, video_left, pyFloorDiv_two]
  refine ⟨by omega, by omega, by omega, by omega, by omega, by omega, by omega, by omega⟩

/-- Witness for C4: `side_margin = 20`, content top 519, scaled height 881. -/
theorem C4_witness :
    (0 : ℤ) ≤ 20 ∧ 2 * 20 < (1080 : ℤ) ∧ (0 : ℤ) < 881
    ∧ (16 ≤ target_width 20
    ∧ target_width 20 = max 16 (1080 - 2 * 20)
    ∧ 0 ≤ (frame_rect (target_width 20) 519 881).x0
    ∧ (frame_rect (target_width 20) 519 881).x0 ≤ (frame_rect (target_width 20) 519 881).x1
    ∧ (frame_rect (target_width 20) 519 881).x1 ≤ 1080
    ∧ 0 ≤ (frame_rect (target_width 20) 519 881).y0
    ∧ (frame_rect (target_width 20) 519 881).y0 ≤ (frame_rect (target_width 20) 519 881).y1
    ∧ (frame_rect (target_width 20) 519 881).y1 ≤ 1920) :=
  ⟨by decide, by decide, by decide, C4_content_rect 20 519 881 (by decide) (by decide) (by decide)⟩

/-- Counterexample to C4 as stated: `side_margin = 533` satisfies
`2*side_margin = 1066 < 1080`, but `1080 - 2*533 = 14 < 16`; the code's
content width is the clamped 16, not the claimed difference. -/
theorem C4_counterexample :
    (0 : ℤ) ≤ 533 ∧ 2 * 533 < (1080 : ℤ)
    ∧ target_width 533 = 16
    ∧ (1080 - 2 * 533 : ℤ) = 14
    ∧ target_width 533 ≠ 1080 - 2 * 533
    ∧ ¬(16 ≤ (1080 - 2 * 533 : ℤ)) := by
  refine ⟨by decide, by decide, by decide, by decide, by decide, by decide⟩

/-- Claim C5. The title vertical position is
`title_y = max(6, content_top - title_gap)`; with `content_top = 100`,
`title_gap = 200` it is 6, and with `content_top = 300`, `title_gap = 80`
it is 220. -/
theorem C5_title_y :
    (∀ video_top gap : ℤ, title_pos_y video_top gap = max 6 (video_top - gap))
    ∧ title_pos_y 100 200 = 6
    ∧ title_pos_y 300 80 = 220 :=
  ⟨fun _ _ => rfl, by decide, by decide⟩

/-- Claim C1, amended. In every assembled compositing chain in which the
on-frame drawtext title and a subtitle/track overlay are both used, the text
suffix `[drawtext, track]` is appended after the base geometry chain and
after all frame/mask/logo overlay stages (the amendment: the code applies
the drawtext at the end, immediately before the track overlay, not before
the frame/mask/logo stages); the subtitle/track overlay is the final filter
stage. -/
theorem C1_text_suffix_order (uf um hl : Bool) (tw lx ly : ℤ) (c : TextCfg) (d t : String)
    (hd : c.drawtext = some d) (ht : track_stage c = some t) :
    insta_main_chain uf um hl tw lx ly (build_text_suffix_parts c)
      = base_transform_stages tw ++ overlay_stages uf um hl lx ly ++ [d, t]
    ∧ (insta_main_chain uf um hl tw lx ly (build_text_suffix_parts c)).getLast? = some t := by
  have hparts : build_text_suffix_parts c = [d, t] := by
    simp [build_text_suffix_parts, hd, ht]
  have h1 : insta_main_chain uf um hl tw lx ly (build_text_suffix_parts c)
      = base_transform_stages tw ++ overlay_stages uf um hl lx ly ++ [d, t] := by
    cases uf <;> cases um <;> cases hl <;>
      simp [insta_main_chain, overlay_stages, hparts]
  refine ⟨h1, ?_⟩
  rw [h1]
  simp [List.getLast?_append]

/-- Witness for C1: the frame-plus-logo shape with the concrete drawtext and
SRT track configuration. -/
theorem C1_witness :
    c1_cfg.drawtext = some c1_drawtext
    ∧ track_stage c1_cfg = some c1_track
    ∧ (insta_main_chain true false true 1080 16 535 (build_text_suffix_parts c1_cfg)
        = base_transform_stages 1080 ++ overlay_stages true false true 16 535
            ++ [c1_drawtext, c1_track]
      ∧ (insta_main_chain true false true 1080 16 535 (build_text_suffix_parts c1_cfg)).getLast?
          = some c1_track) :=
  ⟨by decide, by decide,
    C1_text_suffix_order true false true 1080 16 535 c1_cfg c1_drawtext c1_track
      (by decide) (by decide)⟩

/-- Counterexample to C1 as stated: in the frame-plus-logo chain for a
1080-wide content area, position 3 (the stage immediately after the
three-stage base geometry chain) is the frame overlay, not the drawtext
title; the drawtext sits at position 5, after both overlay stages. -/
theorem C1_counterexample :
    drawtext_filter false (some "Movie") none 42 519 none = some c1_drawtext
    ∧ logo_coords (target_width 0) (video_top_val (some 881)) 16 = (16, 535)
    ∧ (insta_main_chain true false true (target_width 0) 16 535
        (build_text_suffix_parts c1_cfg)).get? 3 = some "overlay=0:0"
    ∧ (insta_main_chain true false true (target_width 0) 16 535
        (build_text_suffix_parts c1_cfg)).get? 3 ≠ some c1_drawtext
    ∧ (insta_main_chain true false true (target_width 0) 16 535
        (build_text_suffix_parts c1_cfg)).get? 5 = some c1_drawtext
    ∧ (base_transform_stages (target_width 0)).length = 3 := by
  refine ⟨by decide, by decide, by decide, by decide, by decide, by decide⟩

/-- Claim C6, amended. When the provided logo file exists but cannot be
decoded, logo preparation yields no logo and the pipeline selects the
corresponding no-logo compositing chain instead of aborting (the amendment:
a missing logo file does not fail preparation — a generated placeholder
logo is used, see the counterexample). -/
theorem C6_decode_failure_no_logo (r : ℚ) (f : LogoFile) (sv uf um : Bool) (tw lx ly : ℤ)
    (parts : List String) (hex : f.file_present = true) (hdec : f.decodable = false) :
    logo_ready true r (some f) sv = none
    ∧ insta_main_chain uf um (logo_ready true r (some f) sv).isSome tw lx ly parts
        = insta_main_chain uf um false tw lx ly parts := by
  have h : logo_ready true r (some f) sv = none := by
    unfold logo_ready prepare_logo
    simp [hex, hdec]
  exact ⟨h, by rw [h]; rfl⟩

/-- Witness for C6: an existing but undecodable logo file with the default
size ratio 0.15. -/
theorem C6_witness :
    (LogoFile.mk true false).file_present = true
    ∧ (LogoFile.mk true false).decodable = false
    ∧ (logo_ready true (15 / 100) (some (LogoFile.mk true false)) true = none
      ∧ insta_main_chain true false
          (logo_ready true (15 / 100) (some (LogoFile.mk true false)) true).isSome
          1080 16 535 []
        = insta_main_chain true false false 1080 16 535 []) :=
  ⟨rfl, rfl,
    C6_decode_failure_no_logo (15 / 100) (LogoFile.mk true false) true true false
      1080 16 535 [] rfl rfl⟩

/-- Counterexample to C6 as stated: a missing logo file does not degrade to
the no-logo path — `prepare_logo` generates the placeholder logo and the
pipeline selects a chain containing the logo overlay stage. -/
theorem C6_counterexample :
    logo_ready true (15 / 100) (some (LogoFile.mk false true)) true = some LogoImage.dummy
    ∧ (logo_ready true (15 / 100) (some (LogoFile.mk false true)) true).isSome = true
    ∧ insta_main_chain true false
        (logo_ready true (15 / 100) (some (LogoFile.mk false true)) true).isSome
        1080 16 535 []
      ≠ insta_main_chain true false false 1080 16 535 []
    ∧ overlay_xy 16 535 ∈ insta_main_chain true false
        (logo_ready true (15 / 100) (some (LogoFile.mk false true)) true).isSome
        1080 16 535 [] := by
  have h : logo_ready true (15 / 100) (some (LogoFile.mk false true)) true
      = some LogoImage.dummy := by
    unfold logo_ready prepare_logo
    norm_num
  refine ⟨h, by rw [h]; rfl, ?_, ?_⟩
  · rw [h]
    decide
  · rw [h]
    decide

/-- Claim C7. Parsing the decoded payload
`{"0": {"TimeStart": "1.5", "TimeEnd": "3.25", "Text": "Hi"}}` yields
exactly the cue `(1.5, 3.25, "Hi")`, and the SRT serializer renders its time
line as `00:00:01,500 --> 00:00:03,250`. -/
theorem C7_caption_roundtrip :
    parse_subs_field [("0", c7_entry)] = [(3/2, 13/4, "Hi")]
    ∧ float_to_srt_time (3/2) ++ " --> " ++ float_to_srt_time (13/4)
        = "00:00:01,500 --> 00:00:03,250"
    ∧ write_srt_lines [(3/2, 13/4, "Hi")]
        = ["1", "00:00:01,500 --> 00:00:03,250", "Hi", ""] := by
  have h1 : parsePyFloat "1.5" = some (3/2) := by
    simp [parsePyFloat, pyStripChars, pyWhitespace]
    norm_num
  have h2 : parsePyFloat "3.25" = some (13/4) := by
    simp [parsePyFloat, pyStripChars, pyWhitespace]
    norm_num
  have hc : cueOfEntry c7_entry = (3/2, 13/4, "Hi") := by
    simp [cueOfEntry, c7_entry, pyFloatOf, h1, h2]
    decide
  have hm1 : decimal_ms (3/2) = 1500 := by norm_num [decimal_ms]
  have hm2 : decimal_ms (13/4) = 3250 := by norm_num [decimal_ms]
  have ht1 : float_to_srt_time (3/2) = "00:00:01,500" := by
    simp [float_to_srt_time, hm1]
    decide
  have ht2 : float_to_srt_time (13/4) = "00:00:03,250" := by
    simp [float_to_srt_time, hm2]
    decide
  refine ⟨?_, ?_, ?_⟩
  · have hp : parse_subs_field [("0", c7_entry)] = [cueOfEntry c7_entry] := rfl
    rw [hp, hc]
  · rw [ht1, ht2]
    decide
  · simp [write_srt_lines, write_srt_lines_from, ht1, ht2]
    decide

/-- Claim C8. The overlay-text escaping maps `It's 50%: done` to
`It\'s 50%%\: done`, and the drawtext filter of the overlay-text path embeds
exactly that escaped form. -/
theorem C8_escape :
    ffmpeg_escape_text "It's 50%: done" = "It\\'s 50%%\\: done"
    ∧ drawtext_filter false (some "It's 50%: done") none 42 519 none
        = some ("drawtext=font='Roboto':text='It\\'s 50%%\\: done':fontsize=42:fontcolor=white:x=(w-text_w)/2:y=519:box=1:boxcolor=black@0.5:boxborderw=5") := by
  constructor <;> decide

/-- Claim C9. For every input, the slug sanitizer returns a non-empty string
whose characters are alphanumeric (under any predicate extending ASCII
alphanumerics, as Python's Unicode `isalnum` does) or one of `-`, `_`, `.`,
with no leading or trailing `-` or `_`; when stripping leaves nothing the
result is the `clip_<timestamp>` fallback, whose digits keep the
invariant. -/
theorem C9_slug_sanitizer (isAlnum : Char → Bool) (now : ℕ) (slug : String)
    (hA : ∀ c : Char, c.isAlphanum = true → isAlnum c = true) :
    safe_filename_from_slug isAlnum now slug ≠ ""
    ∧ (∀ c ∈ (safe_filename_from_slug isAlnum now slug).toList,
        isAlnum c = true ∨ c = '-' ∨ c = '_' ∨ c = '.')
    ∧ (∀ c : Char, (safe_filename_from_slug isAlnum now slug).toList.head? = some c →
        c ≠ '-' ∧ c ≠ '_')
    ∧ (∀ c : Char, (safe_filename_from_slug isAlnum now slug).toList.getLast? = some c →
        c ≠ '-' ∧ c ≠ '_') := by
  by_cases hs : String.mk (pyStripChars ['-', '_']
      ((pyReplace (pyReplace slug "/" "_") " " "_").toList.filter
        (fun c => isAlnum c || dashUnderscoreDot c))) = ""
  · have hval : safe_filename_from_slug isAlnum now slug = "clip_" ++ natDigitString now := by
      simp only [safe_filename_from_slug]
      rw [if_pos hs]
    have hlist : ("clip_" ++ natDigitString now).toList
        = 'c' :: 'l' :: 'i' :: 'p' :: '_' :: natDigitsAux (now + 1) now := rfl
    have hne : natDigitsAux (now + 1) now ≠ [] := natDigitsAux_ne_nil now now
    rw [hval]
    refine ⟨?_, ?_, ?_, ?_⟩
    · intro h
      have h0 : ('c' :: 'l' :: 'i' :: 'p' :: '_' :: natDigitsAux (now + 1) now : List Char)
          = [] := by
        rw [← hlist, h]
        rfl
      exact absurd h0 (by simp)
    · intro c hc
      rw [hlist] at hc
      simp only [List.mem_cons] at hc
      rcases hc with rfl | rfl | rfl | rfl | rfl | hc
      · exact Or.inl (hA _ (by decide))
      · exact Or.inl (hA _ (by decide))
      · exact Or.inl (hA _ (by decide))
      · exact Or.inl (hA _ (by decide))
      · exact Or.inr (Or.inr (Or.inl rfl))
      · have hd := natDigitsAux_digits (now + 1) now c hc
        refine Or.inl (hA _ ?_)
        simp [Char.isAlphanum, hd]
    · intro c hc
      rw [hlist] at hc
      simp only [List.head?_cons, Option.some.injEq] at hc
      subst hc
      exact ⟨by decide, by decide⟩
    · intro c hc
      rw [hlist] at hc
      obtain ⟨d, ds, hd⟩ := List.exists_cons_of_ne_nil hne
      rw [hd] at hc
      simp only [List.getLast?_cons_cons] at hc
      have hmem : c ∈ d :: ds := getLast?_some_mem hc
      rw [← hd] at hmem
      exact digit_not_dash_underscore c (natDigitsAux_digits (now + 1) now c hmem)
  · have hval : safe_filename_from_slug isAlnum now slug
        = String.mk (pyStripChars ['-', '_']
            ((pyReplace (pyReplace slug "/" "_") " " "_").toList.filter
              (fun c => isAlnum c || dashUnderscoreDot c))) := by
      simp only [safe_filename_from_slug]
      rw [if_neg hs]
    rw [hval]
    refine ⟨hs, ?_, ?_, ?_⟩
    · intro c hc
      have h1 := pyStripChars_mem _ _ _ hc
      have h2 := (List.mem_filter.mp h1).2
      simp only [Bool.or_eq_true, dashUnderscoreDot, decide_eq_true_eq] at h2
      tauto
    · intro c hc
      have h1 := pyStripChars_head _ _ _ hc
      simp only [List.contains, List.any, beq_iff_eq, Bool.or_eq_true, decide_eq_true_eq] at h1
      constructor <;> rintro rfl <;> simp_all
    · intro c hc
      have h1 := pyStripChars_getLast _ _ _ hc
      simp only [List.contains, List.any, beq_iff_eq, Bool.or_eq_true, decide_eq_true_eq] at h1
      constructor <;> rintro rfl <;> simp_all

/-- Witness for C9: the slug `a b/c!` sanitizes to `a_b_c`, which satisfies
every claimed invariant under the ASCII alphanumeric predicate. -/
theorem C9_witness :
    safe_filename_from_slug Char.isAlphanum 7 "a b/c!" = "a_b_c"
    ∧ (safe_filename_from_slug Char.isAlphanum 7 "a b/c!" ≠ ""
      ∧ (∀ c ∈ (safe_filename_from_slug Char.isAlphanum 7 "a b/c!").toList,
          Char.isAlphanum c = true ∨ c = '-' ∨ c = '_' ∨ c = '.')
      ∧ (∀ c : Char, (safe_filename_from_slug Char.isAlphanum 7 "a b/c!").toList.head? = some c →
          c ≠ '-' ∧ c ≠ '_')
      ∧ (∀ c : Char, (safe_filename_from_slug Char.isAlphanum 7 "a b/c!").toList.getLast? = some c →
          c ≠ '-' ∧ c ≠ '_')) :=
  ⟨by decide, C9_slug_sanitizer Char.isAlphanum 7 "a b/c!" (fun _ h => h)⟩

/-- Claim C10. The caption parser is total on entries: a missing or
unparsable `TimeStart` gives start `0.0`, a missing or unparsable `TimeEnd`
gives end `start + 2.0`, and missing text fields give the empty string. -/
theorem C10_malformed_defaults (e : SubEntry) :
    ((e.timeStart = none ∨ ∃ s, e.timeStart = some (JVal.str s) ∧ parsePyFloat s = none) →
      (cueOfEntry e).1 = 0)
    ∧ ((e.timeEnd = none ∨ ∃ s, e.timeEnd = some (JVal.str s) ∧ parsePyFloat s = none) →
      (cueOfEntry e).2.1 = (cueOfEntry e).1 + 2)
    ∧ (e.textUpper = none → e.textLower = none → (cueOfEntry e).2.2 = "") := by
  refine ⟨?_, ?_, ?_⟩
  · rintro (hn | ⟨s, hs, hp⟩)
    · simp [cueOfEntry, hn]
    · simp [cueOfEntry, hs, pyFloatOf, hp]
  · rintro (hn | ⟨s, hs, hp⟩)
    · simp [cueOfEntry, hn]
    · simp [cueOfEntry, hs, pyFloatOf, hp]
  · intro hu hl
    simp [cueOfEntry, entry_text, hu, hl]
    decide

/-- Witness for C10: an entry with two unparsable time strings and no text
fields yields the cue `(0, 2, "")`. -/
theorem C10_witness :
    (cueOfEntry c10_entry).1 = 0
    ∧ (cueOfEntry c10_entry).2.1 = (cueOfEntry c10_entry).1 + 2
    ∧ (cueOfEntry c10_entry).2.2 = "" :=
  ⟨(C10_malformed_defaults c10_entry).1 (Or.inr ⟨"oops", rfl, by decide⟩),
   (C10_malformed_defaults c10_entry).2.1 (Or.inr ⟨"nope", rfl, by decide⟩),
   (C10_malformed_defaults c10_entry).2.2 rfl rfl⟩
